import Mathlib

/-!
Shallow embedding of the lock-free lookup table from `src/main.cpp`
(`Triple_Hash::get` and the `LookTable<T>` class), specialised to
single-threaded (quiescent) executions: every atomic load sees the value
written by the preceding program-order store, and a strong
compare-and-swap succeeds exactly when the expected value equals the
current value.  Machine integers are modelled as `Nat` with explicit
`% 2^64` wherever `uint64_t` arithmetic can wrap; `int64_t` keys are
modelled as `Int`, converted to `uint64_t` (i.e. reduced `% 2^64`) at
the hash boundary exactly as the C++ implicit conversion does.
-/

/-- `2^64`, the modulus of `uint64_t` arithmetic. -/
def U64 : Nat := 18446744073709551616

/-- `const uint64_t MAX_SIZE = 1000000;` -/
def MAX_SIZE : Nat := 1000000

namespace Triple_Hash

/-- `const uint64_t PRIME1 = 2654435761;` -/
def PRIME1 : Nat := 2654435761

/-- `const uint64_t PRIME2 = 2246822519;` -/
def PRIME2 : Nat := 2246822519

/-- `const uint64_t PRIME3 = 3266489917;` -/
def PRIME3 : Nat := 3266489917

/-- `const uint64_t MOD1 = 1e9 + 7;` (the double literal `1e9+7` is exactly `1000000007`). -/
def MOD1 : Nat := 1000000007

/-- `const uint64_t MOD2 = 1e9 + 9;` (exactly `1000000009`). -/
def MOD2 : Nat := 1000000009

/-- `const uint64_t MOD3 = MAX_SIZE;` -/
def MOD3 : Nat := MAX_SIZE

/-- `uint64_t Triple_Hash::get(uint64_t id)`: three multiply-and-reduce
stages.  Each C++ multiplication is a `uint64_t` multiplication, hence
the explicit `% U64` before each prime reduction. -/
def get (id : Nat) : Nat :=
  let hash1 := (id * PRIME1 % U64) % MOD1
  let hash2 := (hash1 * PRIME2 % U64) % MOD2
  let hash3 := (hash2 * PRIME3 % U64) % MOD3
  hash3

end Triple_Hash

/-- The implicit C++ conversion of an `int64_t` key to the `uint64_t`
argument of `Triple_Hash::get`: reduction modulo `2^64`. -/
def toU64 (k : Int) : Nat := (k % (U64 : Int)).toNat

/-- The bucket index the table uses for an `int64_t` key. -/
def bucketOf (k : Int) : Nat := Triple_Hash.get (toU64 k)

/-- `LookTable<T>::Node`: key and owned payload.  The `next` pointer is
represented by list structure: a bucket chain is the list of nodes
reachable from the bucket head, in chain order, and a node's `next` is
the following node of the list (null at the end). -/
structure Node (T : Type) where
  id : Int
  data : T
deriving DecidableEq, Repr

/-- `LookTable<T>`: the array of `MAX_SIZE` atomic bucket heads (a bucket
is its chain, read off from the head) and the atomic `uint64_t`
live-entry counter.  The bucket array is total over `Nat`; only indices
below `MAX_SIZE` are ever addressed since the hash is reduced `% MAX_SIZE`. -/
structure LookTable (T : Type) where
  sizeCounter : Nat
  table : Nat → List (Node T)

namespace LookTable

variable {T : Type}

/-- A freshly constructed table: every bucket head null, counter `0`. -/
def init : LookTable T := ⟨0, fun _ => []⟩

/-- `void insert(int64_t id, T&& t)`: one node is allocated and pushed as
the new bucket head by a CAS retry loop; in a single-threaded execution
the head cannot change between the load and the CAS, so the CAS succeeds
on the first attempt and the loop body never repeats.  On success the
counter is incremented (`fetch_add(1)` wraps modulo `2^64`). -/
def insert (t : LookTable T) (id : Int) (v : T) : LookTable T :=
  let hash := bucketOf id
  { sizeCounter := (t.sizeCounter + 1) % U64
    table := Function.update t.table hash (⟨id, v⟩ :: t.table hash) }

/-- The chain walk of `find`: compare `currentNode->id == id`, return
`&currentNode->data` on the first match, step to `next` otherwise,
`std::nullopt` when the chain is exhausted. -/
def findLoop (id : Int) : List (Node T) → Option T
  | [] => none
  | n :: rest => if n.id = id then some n.data else findLoop id rest

/-- `std::optional<T*> find(int64_t id)`: hash, load the bucket head,
walk the chain.  The returned payload stands for the `T*` into the node. -/
def find (t : LookTable T) (id : Int) : Option T :=
  findLoop id (t.table (bucketOf id))

/-- The chain walk of `find`, threading the table state through each
iteration exactly as the C++ loop does (every iteration only reads). -/
def findLoopSt (id : Int) : List (Node T) → LookTable T → Option T × LookTable T
  | [], t => (none, t)
  | n :: rest, t => if n.id = id then (some n.data, t) else findLoopSt id rest t

/-- `find` as a state transformer: result paired with the table state
after the call. -/
def findSt (t : LookTable T) (id : Int) : Option T × LookTable T :=
  findLoopSt id (t.table (bucketOf id)) t

/-- The `erase` scan loop over a fixed chain `c` (single-threaded, so the
chain does not change while the loop runs).  `oldHead` is the position
`i` into `c` (`i = c.length` is the null pointer).  On a key match the
code runs `head.compare_exchange_weak(oldHead, next)`: the CAS compares
the bucket head pointer (position `0`) with `oldHead` (position `i`), so
it succeeds exactly when `i = 0`; on failure it stores the current head
into `oldHead` (position `0`), after which `oldHead = oldHead->next`
moves to position `1`.  `fuel` bounds the number of iterations;
`none` means the loop has not exited within `fuel` iterations.
Returns `some true` when a node was unlinked (necessarily the head),
`some false` when the loop fell off the end of the chain. -/
def eraseLoop (id : Int) (c : List (Node T)) (i : Nat) : Nat → Option Bool
  | 0 => if i < c.length then none else some false
  | Nat.succ fuel' =>
    if h : i < c.length then
      if (c.get ⟨i, h⟩).id = id then
        if i = 0 then some true
        else eraseLoop id c 1 fuel'
      else eraseLoop id c (i + 1) fuel'
    else some false

/-- `void erase(int64_t id)`: hash, scan the chain with `eraseLoop`.
On a successful CAS the code runs `delete oldHead; return;` — the head
node is physically destroyed inside the call (second component: the list
of nodes freed during the call) and the counter is NOT touched.  When
the loop falls off the end of the chain the code runs
`sizeCounter.fetch_sub(1)` — a wrapping `uint64_t` decrement — and
returns.  `none` means the call has not returned within `fuel` loop
iterations. -/
def erase (t : LookTable T) (id : Int) (fuel : Nat) :
    Option (LookTable T × List (Node T)) :=
  let hash := bucketOf id
  let c := t.table hash
  match eraseLoop id c 0 fuel with
  | none => none
  | some true =>
      some ({ sizeCounter := t.sizeCounter
              table := Function.update t.table hash c.tail },
            c.take 1)
  | some false =>
      some ({ sizeCounter := (t.sizeCounter + U64 - 1) % U64
              table := t.table },
            [])

/-- `uint64_t size()`: load of the counter. -/
def size (t : LookTable T) : Nat := t.sizeCounter

end LookTable

namespace LookTable

variable {T : Type}

/-- After inserting `k`, the new node is the bucket head, so `find k`
returns its payload. -/
lemma find_insert_self (t : LookTable T) (k : Int) (p : T) :
    (t.insert k p).find k = some p := by
  simp [find, insert, findLoop, Function.update_same]

/-- Inserting a different key leaves `find k'` unchanged: either the
buckets differ, or the new head node's key fails the comparison and the
walk continues into the old chain. -/
lemma find_insert_other (t : LookTable T) (k k' : Int) (p : T) (h : k ≠ k') :
    (t.insert k p).find k' = t.find k' := by
  simp only [find, insert]
  by_cases hb : bucketOf k = bucketOf k'
  · rw [← hb, Function.update_same]
    simp [findLoop, h]
  · rw [Function.update_noteq (Ne.symm hb)]

/-- The chain walk returns the payload of the first node in chain order
whose key matches. -/
lemma findLoop_eq_find? (id : Int) (c : List (Node T)) :
    findLoop id c = (c.find? (fun n => n.id == id)).map Node.data := by
  induction c with
  | nil => rfl
  | cons n rest ih =>
    by_cases h : n.id = id
    · rw [List.find?_cons_of_pos _ (by simp [h])]
      simp [findLoop, h]
    · rw [List.find?_cons_of_neg _ (by simp [h])]
      simp [findLoop, h, ih]

/-- The state-threading chain walk returns the same result as the plain
walk and returns the state it was given, unchanged. -/
lemma findLoopSt_eq (id : Int) (c : List (Node T)) (t : LookTable T) :
    findLoopSt id c t = (findLoop id c, t) := by
  induction c with
  | nil => rfl
  | cons n rest ih =>
    by_cases h : n.id = id <;> simp [findLoopSt, findLoop, h, ih]

/-- Once the erase scan stands at position `1` and the node there matches
the key, every further iteration returns to position `1`: the failed CAS
resets `oldHead` to the bucket head and the trailing `oldHead =
oldHead->next` advances it back to position `1`.  The loop never exits,
whatever the fuel. -/
lemma eraseLoop_stuck (id : Int) (c : List (Node T)) (h : 1 < c.length)
    (hid : (c.get ⟨1, h⟩).id = id) : ∀ fuel, eraseLoop id c 1 fuel = none := by
  intro fuel
  have hid' : (GetElem.getElem c 1 h).id = id := by simpa using hid
  induction fuel with
  | zero => rw [eraseLoop]; simp [h]
  | succ n ih => rw [eraseLoop]; simp [h, hid', ih]

/-- On a two-node chain whose second node matches the key (and the head
does not), the erase scan diverges: it reaches position `1`, the CAS
against the head fails, and the loop cycles at position `1` forever. -/
lemma eraseLoop_two_diverges (id : Int) (a b : Node T) (ha : a.id ≠ id)
    (hb : b.id = id) : ∀ fuel, eraseLoop id [a, b] 0 fuel = none := by
  intro fuel
  match fuel with
  | 0 => rw [eraseLoop]; simp
  | Nat.succ n =>
    rw [eraseLoop]
    simp [ha]
    exact eraseLoop_stuck id [a, b] (by simp) (by simp [hb]) n

/-- If the scan loop does not exit within the given fuel, neither does
`erase`. -/
lemma erase_eq_none (t : LookTable T) (id : Int) (fuel : Nat)
    (h : eraseLoop id (t.table (bucketOf id)) 0 fuel = none) :
    t.erase id fuel = none := by
  simp only [erase]
  rw [h]

/-- When the key's bucket chain is empty, the scan loop exits at once
(`oldHead` is null), nothing is unlinked or freed, and the code still
runs the wrapping `fetch_sub(1)` on the counter. -/
lemma erase_empty_bucket (t : LookTable T) (id : Int) (fuel : Nat)
    (h : t.table (bucketOf id) = []) :
    t.erase id fuel
      = some ({ sizeCounter := (t.sizeCounter + U64 - 1) % U64, table := t.table },
              []) := by
  simp only [erase]
  rw [h]
  cases fuel with
  | zero => rfl
  | succ n => rfl

end LookTable

/-- C1: evaluation of the code at the failing input.  After inserting key
`1` (so `size() = 1`) and erasing the present key `1`, `find 1` is indeed
absent, but `size()` is still `1` rather than `0`: the successful-unlink
path of `erase` runs `delete oldHead; return;` without ever touching
`sizeCounter` (the `fetch_sub(1)` sits after the loop, on the
fell-off-the-chain path only), so the counter is NOT one less than
before the erase, contradicting the claim. -/
theorem claim_C1_erase_present_key :
    (((LookTable.init : LookTable Nat).insert 1 42).erase 1 1).map
      (fun r => (r.1.size, r.1.find 1)) = some (1, none) := by decide

/-- C2: evaluation of the code at the failing input.  With key `1`
present (`size() = 1`), erasing the absent key `0` leaves every bucket
and entry unchanged (second conjunct: the whole bucket array is
unchanged; first conjunct: key `1`'s chain and payload are intact and
nothing was freed), but `size()` drops from `1` to `0`: the
fell-off-the-chain path of `erase` runs `sizeCounter.fetch_sub(1)`, so
the erase of an absent key is not a counter no-op as the claim states
(and `erase` returns `void`, reporting nothing). -/
theorem claim_C2_erase_absent_key :
    ((((LookTable.init : LookTable Nat).insert 1 42).erase 0 1).map
      (fun r => (r.1.size, r.1.table (bucketOf 1), r.1.find 1, r.2))
      = some (0, [⟨1, 42⟩], some 42, [])) ∧
    ((((LookTable.init : LookTable Nat).insert 1 42).erase 0 1).map
      (fun r => r.1.table)
      = some (((LookTable.init : LookTable Nat).insert 1 42).table)) :=
  ⟨by decide, rfl⟩

/-- C3: keys `1` and `201850` hash to the same bucket (index `991601`),
so after `insert 1` then `insert 201850` the node for key `1` is
mid-chain.  `erase 1` then never terminates, whatever iteration budget
`fuel` it is given: the code's CAS compares the bucket head against the
mid-chain node `oldHead`, which always fails, and the failed CAS resets
`oldHead` to the head, after which `oldHead = oldHead->next` puts the
scan back at position `1` forever.  The code never CASes the
predecessor's `next` link, so a present mid-chain key is never unlinked,
contradicting the claim. -/
theorem claim_C3_mid_chain_erase_diverges (fuel : Nat) :
    (((LookTable.init : LookTable Nat).insert 1 10).insert 201850 20).erase 1 fuel
      = none := by
  apply LookTable.erase_eq_none
  have hc : ((((LookTable.init : LookTable Nat).insert 1 10).insert 201850 20).table
      (bucketOf 1)) = [⟨201850, 20⟩, ⟨1, 10⟩] := by decide
  rw [hc]
  exact LookTable.eraseLoop_two_diverges 1 _ _ (by decide) rfl fuel

/-- C4: termination fails.  `insert` and `find` are total (they are
plain definitions by structural recursion over the finite chain), but
`erase` is not: keys `4` and `201853` hash to the same bucket (index
`37566`), and with both inserted, `erase 4` — a present, mid-chain key —
runs forever for every iteration budget `fuel`, so not every operation
terminates in a single-threaded execution, contradicting the claim. -/
theorem claim_C4_erase_nonterminating (fuel : Nat) :
    (((LookTable.init : LookTable Nat).insert 4 40).insert 201853 44).erase 4 fuel
      = none := by
  apply LookTable.erase_eq_none
  have hc : ((((LookTable.init : LookTable Nat).insert 4 40).insert 201853 44).table
      (bucketOf 4)) = [⟨201853, 44⟩, ⟨4, 40⟩] := by decide
  rw [hc]
  exact LookTable.eraseLoop_two_diverges 4 _ _ (by decide) rfl fuel

/-- C5: evaluation of the code at the failing input.  Erasing the
present key `100` physically destroys the node inside the very same
`erase` call (the freed-node list of the call is non-empty: the code
runs `delete oldHead` immediately after the successful CAS).  There is
no reclamation layer, retirement list, or deferral of any kind in the
code, so destruction is not deferred until concurrent traversals are
done, contradicting the claim. -/
theorem claim_C5_erase_frees_node_immediately :
    (((LookTable.init : LookTable Nat).insert 100 42).erase 100 1).map (fun r => r.2)
      = some [⟨100, 42⟩] := by decide

/-- C10: the live-entry counter is a `uint64_t` updated modulo `2^64`;
on a freshly constructed table, `erase k` for any key `k` falls off the
empty chain without removing anything (nothing freed, buckets untouched)
and still runs `sizeCounter.fetch_sub(1)`, wrapping the counter from `0`
to `2^64 - 1`, which is what `size()` then returns. -/
theorem claim_C10_counter_wraps_below_zero (T : Type) (k : Int) (fuel : Nat) :
    (((LookTable.init : LookTable T).erase k fuel).map (fun r => r.1.size)
        = some (2 ^ 64 - 1)) ∧
    (((LookTable.init : LookTable T).erase k fuel).map (fun r => r.2) = some []) ∧
    (((LookTable.init : LookTable T).erase k fuel).map (fun r => r.1.table)
        = some (fun _ => [])) := by
  have h := LookTable.erase_empty_bucket (LookTable.init : LookTable T) k fuel rfl
  rw [h]
  norm_num [LookTable.size, U64, LookTable.init]

/-- C6: round trip for distinct keys.  For any table state and any two
distinct keys inserted with their payloads, `find` returns each key's
own payload; quantifying over `k1`, `k2`, `p1`, `p2` covers both
insertion orders (swap the roles of the two keys). -/
theorem claim_C6_round_trip {T : Type} (t : LookTable T) (k1 k2 : Int)
    (p1 p2 : T) (h : k1 ≠ k2) :
    ((t.insert k1 p1).insert k2 p2).find k1 = some p1 ∧
    ((t.insert k1 p1).insert k2 p2).find k2 = some p2 := by
  constructor
  · rw [LookTable.find_insert_other _ _ _ _ (Ne.symm h)]
    exact LookTable.find_insert_self _ _ _
  · exact LookTable.find_insert_self _ _ _

/-- Witness for C6 at the spec's concrete scenario: keys `100` and `200`
with payloads `42` and `43`. -/
theorem claim_C6_round_trip_witness :
    (100 : Int) ≠ 200 ∧
    ((((LookTable.init : LookTable Nat).insert 100 42).insert 200 43).find 100
        = some 42) ∧
    ((((LookTable.init : LookTable Nat).insert 100 42).insert 200 43).find 200
        = some 43) :=
  ⟨by decide,
   (claim_C6_round_trip (LookTable.init : LookTable Nat) 100 200 42 43
      (by decide)).1,
   (claim_C6_round_trip (LookTable.init : LookTable Nat) 100 200 42 43
      (by decide)).2⟩

/-- C7: `find` walks the chain from the bucket head and returns the
payload of the first node in chain order whose key matches (first
conjunct, phrased with `List.find?`); since `insert` pushes at the head,
re-inserting a key shadows the older node, so after inserting `p1` then
`p2` under the same key, `find` yields `p2` (second conjunct); and when
no node in the chain matches, `find` returns the empty optional (third
conjunct). -/
theorem claim_C7_find_first_match {T : Type} (t : LookTable T) (k : Int)
    (p1 p2 : T) :
    (t.find k
        = (List.find? (fun n => n.id == k) (t.table (bucketOf k))).map Node.data) ∧
    (((t.insert k p1).insert k p2).find k = some p2) ∧
    ((∀ n ∈ t.table (bucketOf k), n.id ≠ k) → t.find k = none) := by
  refine ⟨LookTable.findLoop_eq_find? k _, LookTable.find_insert_self _ _ _, ?_⟩
  intro hall
  have hnone : List.find? (fun n => n.id == k) (t.table (bucketOf k)) = none :=
    List.find?_eq_none.mpr fun x hx => by simpa using hall x hx
  show LookTable.findLoop k (t.table (bucketOf k)) = none
  rw [LookTable.findLoop_eq_find?, hnone]
  rfl

/-- Witness for C7: on a fresh table no node matches key `5`, so `find`
is empty; after inserting payload `1` then payload `2` under key `5`,
`find` yields `2`. -/
theorem claim_C7_find_first_match_witness :
    ((LookTable.init : LookTable Nat).find 5 = none) ∧
    ((((LookTable.init : LookTable Nat).insert 5 1).insert 5 2).find 5 = some 2) :=
  ⟨(claim_C7_find_first_match (LookTable.init : LookTable Nat) 5 1 2).2.2
      (by intro n hn; simp [LookTable.init] at hn),
   (claim_C7_find_first_match (LookTable.init : LookTable Nat) 5 1 2).2.1⟩

/-- C8: the hash is a pure total function of the key — it is a plain
definition with no state and no failure mode — whose result always lies
in `[0, CAPACITY)` with `CAPACITY = MAX_SIZE = 1000000` (first
conjunct), and it is exactly the three multiplicative mixing stages of
the claim: multiply by `2654435761` and reduce modulo `10^9 + 7`,
multiply by `2246822519` and reduce modulo `10^9 + 9`, multiply by
`3266489917` and reduce modulo `1000000` (second conjunct; the first
multiplication is a wrapping `uint64_t` multiplication, and the second
and third cannot wrap because their left factors are already reduced
below `10^9 + 7` resp. `10^9 + 9`). -/
theorem claim_C8_hash_pure_total_in_range (id : Nat) :
    Triple_Hash.get id < MAX_SIZE ∧
    Triple_Hash.get id =
      ((id * Triple_Hash.PRIME1 % U64 % Triple_Hash.MOD1) * Triple_Hash.PRIME2
          % Triple_Hash.MOD2) * Triple_Hash.PRIME3 % MAX_SIZE := by
  have h1 : id * Triple_Hash.PRIME1 % U64 % Triple_Hash.MOD1 < Triple_Hash.MOD1 :=
    Nat.mod_lt _ (by norm_num [Triple_Hash.MOD1])
  have e2 : id * Triple_Hash.PRIME1 % U64 % Triple_Hash.MOD1 * Triple_Hash.PRIME2
      % U64 = id * Triple_Hash.PRIME1 % U64 % Triple_Hash.MOD1 * Triple_Hash.PRIME2 :=
    Nat.mod_eq_of_lt (lt_of_lt_of_le
      (mul_lt_mul_of_pos_right h1 (by norm_num [Triple_Hash.PRIME2]))
      (by norm_num [Triple_Hash.MOD1, Triple_Hash.PRIME2, U64]))
  have h2 : id * Triple_Hash.PRIME1 % U64 % Triple_Hash.MOD1 * Triple_Hash.PRIME2
      % Triple_Hash.MOD2 < Triple_Hash.MOD2 :=
    Nat.mod_lt _ (by norm_num [Triple_Hash.MOD2])
  have e3 : id * Triple_Hash.PRIME1 % U64 % Triple_Hash.MOD1 * Triple_Hash.PRIME2
      % Triple_Hash.MOD2 * Triple_Hash.PRIME3 % U64
      = id * Triple_Hash.PRIME1 % U64 % Triple_Hash.MOD1 * Triple_Hash.PRIME2
      % Triple_Hash.MOD2 * Triple_Hash.PRIME3 :=
    Nat.mod_eq_of_lt (lt_of_lt_of_le
      (mul_lt_mul_of_pos_right h2 (by norm_num [Triple_Hash.PRIME3]))
      (by norm_num [Triple_Hash.MOD2, Triple_Hash.PRIME3, U64]))
  constructor
  · simp only [Triple_Hash.get]
    exact Nat.mod_lt _ (by norm_num [Triple_Hash.MOD3, MAX_SIZE])
  · simp only [Triple_Hash.get]
    rw [e2, e3]
    rfl

/-- C9: `find` never mutates the table.  Running `find` as a state
transformer (the chain walk threading the table state through every
iteration) returns the table exactly as it was — every bucket head,
every node, and the live-entry counter unchanged — together with the
same result as the plain `find`. -/
theorem claim_C9_find_never_mutates {T : Type} (t : LookTable T) (k : Int) :
    (t.findSt k).2 = t ∧ (t.findSt k).1 = t.find k := by
  unfold LookTable.findSt LookTable.find
  rw [LookTable.findLoopSt_eq]
  exact ⟨rfl, rfl⟩
